import Mathlib

/-!
Verification development for the Computer-Emulator toolchain
(32-bit emulator core `src/core/emulator32bit` and assembler preprocessor
`src/src/AssemblerV3`).

The C++ sources are shallowly embedded: machine words (`word`, 32-bit
unsigned) are `Nat` with explicit `% 2^32` where overflow can occur, byte
stores are functions `Nat → Nat` indexed by the 32-bit truncation of the
address, and exception records passed by reference in C++ become `Option`
results describing the fault that was written (or `none` when the routine
leaves the record untouched).
-/

namespace Emulator32bit

/-- Width of the C++ `word` type (32-bit unsigned): 2^32. -/
def WORD_SIZE : Nat := 4294967296

/-- The value of the C++ expression `address + num_bytes - 1` under the usual
arithmetic conversions: both operands convert to 32-bit unsigned and the
result wraps modulo 2^32.  Written additively so it is correct for every
`Nat` input (adding `WORD_SIZE - 1` is the two's-complement `- 1`). -/
def lastAddr (address num_bytes : Nat) : Nat :=
  (address + num_bytes + (WORD_SIZE - 1)) % WORD_SIZE

/-- Fault written into a `MemoryReadException` record
(`Memory.cpp` lines 24-29: only `type` and `address` are set). -/
inductive MemoryReadFault
  | OUT_OF_BOUNDS_ADDRESS (address : Nat)
  deriving DecidableEq, Repr

/-- Fault written into a `MemoryWriteException` record
(`Memory.cpp` lines 39-46 and 96-101: `type`, `address`, `value`,
`num_bytes` are set). -/
inductive MemoryWriteFault
  | OUT_OF_BOUNDS_ADDRESS (address value num_bytes : Nat)
  | ACCESS_DENIED (address value num_bytes : Nat)
  deriving DecidableEq, Repr

/-- A memory region (`Memory` in `Memory.cpp`): inclusive address window
`[lo_addr, hi_addr]` and a byte store.  The C++ `data` array is indexed by
`(word)(address + i)`, so the store is modelled as a function on the 32-bit
truncation of the address. -/
structure Memory where
  lo_addr : Nat
  hi_addr : Nat
  data : Nat → Nat

/-- `Memory::in_bounds` (`Memory.cpp` lines 20-22). -/
def Memory.in_bounds (m : Memory) (address : Nat) : Bool :=
  decide (m.lo_addr ≤ address) && decide (address ≤ m.hi_addr)

/-- The read loop of `Memory::read` (`Memory.cpp` lines 31-35):
`value <<= 8; value += data[(word)(address + i)]` for `i = 0 .. n-1`,
with `value` a 32-bit word. -/
def Memory.readLoop (data : Nat → Nat) (address : Nat) : Nat → Nat → Nat
  | 0, value => value
  | n + 1, value =>
    Memory.readLoop data (address + 1) n ((value * 256 + data (address % WORD_SIZE)) % WORD_SIZE)

/-- `Memory::read` (`Memory.cpp` lines 24-37).  Returns the value together
with the fault recorded into the exception record (`none`: untouched). -/
def Memory.read (m : Memory) (address : Nat) (num_bytes : Nat) :
    Nat × Option MemoryReadFault :=
  if !(m.in_bounds address && m.in_bounds (lastAddr address num_bytes)) then
    (0, some (MemoryReadFault.OUT_OF_BOUNDS_ADDRESS address))
  else
    (Memory.readLoop m.data address num_bytes 0, none)

/-- The write loop of `Memory::write` (`Memory.cpp` lines 48-51):
`data[(word)(address + i)] = value & 0xFF; value >>= 8` for `i = 0 .. n-1`.
Besides the updated store it returns the list of byte stores issued, in
issue order (address, stored byte). -/
def Memory.writeLoop (data : Nat → Nat) (address value : Nat) :
    Nat → ((Nat → Nat) × List (Nat × Nat))
  | 0 => (data, [])
  | n + 1 =>
    let a := address % WORD_SIZE
    let b := value % 256
    let next := Memory.writeLoop (fun x => if x = a then b else data x) (address + 1) (value / 256) n
    (next.1, (a, b) :: next.2)

/-- `Memory::write` (`Memory.cpp` lines 39-52). -/
def Memory.write (m : Memory) (address value : Nat) (num_bytes : Nat) :
    Memory × Option MemoryWriteFault :=
  if !(m.in_bounds address && m.in_bounds (lastAddr address num_bytes)) then
    (m, some (MemoryWriteFault.OUT_OF_BOUNDS_ADDRESS address value num_bytes))
  else
    ({ m with data := (Memory.writeLoop m.data address value num_bytes).1 }, none)

/-- The byte stores issued by `Memory::write`, in issue order
(empty when the bounds check fails, since the loop is then not entered). -/
def Memory.writeAccesses (m : Memory) (address value : Nat) (num_bytes : Nat) :
    List (Nat × Nat) :=
  if !(m.in_bounds address && m.in_bounds (lastAddr address num_bytes)) then
    []
  else
    (Memory.writeLoop m.data address value num_bytes).2

/-- `ROM::write` (`Memory.cpp` lines 96-101): records `ACCESS_DENIED` with
the address, value and byte count, and performs no mutation. -/
def ROM.write (m : Memory) (address value : Nat) (num_bytes : Nat) :
    Memory × Option MemoryWriteFault :=
  (m, some (MemoryWriteFault.ACCESS_DENIED address value num_bytes))

/-- A concrete 4-byte RAM region over `[0, 3]`, zero-initialised. -/
def ramDemo : Memory :=
  { lo_addr := 0, hi_addr := 3, data := fun _ => 0 }

/-- The value assembled by `Emulator32bit::_emu_printm`
(`software_interrupt.cpp` lines 18-37).  `readByte` stands for
`system_bus.read_byte`; `val` is a 32-bit word.  When `little_endian` is
true the loop runs `i = 0 .. size-1`, else `i = size-1 .. 0`, each step
doing `val <<= 8; val += read_byte(mem_addr + i)`. -/
def emu_printm_value (readByte : Nat → Nat) (mem_addr : Nat) (size : Nat)
    (little_endian : Bool) : Nat :=
  if little_endian then
    (List.range size).foldl
      (fun val i => (val * 256 + readByte ((mem_addr + i) % WORD_SIZE)) % WORD_SIZE) 0
  else
    ((List.range size).reverse).foldl
      (fun val i => (val * 256 + readByte ((mem_addr + i) % WORD_SIZE)) % WORD_SIZE) 0

/-- The value assembled by `Emulator32bit::_emu_assertm`
(`software_interrupt.cpp` lines 56-70); the loop is identical to the one in
`_emu_printm`. -/
def emu_assertm_value (readByte : Nat → Nat) (mem_addr : Nat) (size : Nat)
    (little_endian : Bool) : Nat :=
  if little_endian then
    (List.range size).foldl
      (fun val i => (val * 256 + readByte ((mem_addr + i) % WORD_SIZE)) % WORD_SIZE) 0
  else
    ((List.range size).reverse).foldl
      (fun val i => (val * 256 + readByte ((mem_addr + i) % WORD_SIZE)) % WORD_SIZE) 0

/-- A concrete bus: byte `0x01` at address 0, byte `0x02` at address 1,
zero elsewhere. -/
def busDemo : Nat → Nat :=
  fun a => if a = 0 then 1 else if a = 1 then 2 else 0

/-- The action selected by the `switch (id)` of `Emulator32bit::_swi`
(`software_interrupt.cpp` lines 201-226). -/
inductive SwiAction
  | emu_print
  | emu_printr
  | emu_printm
  | emu_printp
  | emu_assertr
  | emu_assertm
  | emu_assertp
  | invalid_syscall
  deriving DecidableEq, Repr

/-- The dispatch switch of `Emulator32bit::_swi` on the syscall number held
in register NR (`software_interrupt.cpp` lines 201-226).  The `default`
case raises the fatal `INVALID SYSCALL NUMBER` diagnostic. -/
def swiDispatch (id : Nat) : SwiAction :=
  match id with
  | 1000 => SwiAction.emu_print
  | 1001 => SwiAction.emu_printr
  | 1002 => SwiAction.emu_printm
  | 1003 => SwiAction.emu_printp
  | 1010 => SwiAction.emu_assertr
  | 1011 => SwiAction.emu_assertm
  | 1012 => SwiAction.emu_assertp
  | _ => SwiAction.invalid_syscall

end Emulator32bit

namespace AssemblerV3

/-- `Tokenizer::Type` (`Tokenizer.h` lines 15-78).  The C++ name `Type` is a
Lean keyword, so the enum is named `TokType`; constructor names are kept. -/
inductive TokType
  | UNKNOWN
  | TEXT
  | WHITESPACE_SPACE
  | WHITESPACE_TAB
  | WHITESPACE_NEWLINE
  | WHITESPACE
  | COMMENT_SINGLE_LINE
  | COMMENT_MULTI_LINE
  | PREPROCESSOR_INCLUDE
  | PREPROCESSOR_MACRO
  | PREPROCESSOR_MACRET
  | PREPROCESSOR_MACEND
  | PREPROCESSOR_INVOKE
  | PREPROCESSOR_DEFINE
  | PREPROCESSOR_UNDEF
  | PREPROCESSOR_IFDEF
  | PREPROCESSOR_IFNDEF
  | PREPROCESSOR_ELSE
  | PREPROCESSOR_ELSEDEF
  | PREPROCESSOR_ELSENDEF
  | PREPROCESSOR_ENDIF
  | VARIABLE_TYPE_BYTE
  | VARIABLE_TYPE_DBYTE
  | VARIABLE_TYPE_WORD
  | VARIABLE_TYPE_DWORD
  | VARIABLE_TYPE_CHAR
  | VARIABLE_TYPE_STRING
  | VARIABLE_TYPE_FLOAT
  | VARIABLE_TYPE_DOUBLE
  | VARIABLE_TYPE_BOOLEAN
  | ASSEMBLER_GLOBAL
  | ASSEMBLER_EXTERN
  | ASSEMBLER_EQU
  | ASSEMBLER_ORG
  | ASSEMBLER_SCOPE
  | ASSEMBLER_SCEND
  | ASSEMBLER_DB_LOW_ENDIAN
  | ASSEMBLER_DDB_LOW_ENDIAN
  | ASSEMBLER_DDB_HIGH_ENDIAN
  | ASSEMBLER_DW_LOW_ENDIAN
  | ASSEMBLER_DW_HIGH_ENDIAN
  | ASSEMBLER_DDW_LOW_ENDIAN
  | ASSEMBLER_DDW_HIGH_ENDIAN
  | ASSEMBLER_ASCII
  | ASSEMBLER_ASCIZ
  | ASSEMBLER_ADVANCE
  | ASSEMBLER_FILL
  | ASSEMBLER_SPACE
  | ASSEMBLER_CHECKPC
  | ASSEMBLER_ALIGN
  | ASSEMBLER_BSS
  | ASSEMBLER_BSS_ABSOLUTE
  | ASSEMBLER_DATA
  | ASSEMBLER_DATA_ABSOLUTE
  | ASSEMBLER_CODE
  | ASSEMBLER_CODE_ABSOLUTE
  | ASSEMBLER_STOP
  | NUMBER_SIGN
  | LITERAL_NUMBER_BINARY
  | LITERAL_NUMBER_OCTAL
  | LITERAL_NUMBER_DECIMAL
  | LITERAL_NUMBER_HEXADECIMAL
  | LITERAL_CHAR
  | LITERAL_STRING
  | SYMBOL
  | COLON
  | COMMA
  | SEMICOLON
  | OPEN_PARANTHESIS
  | CLOSE_PARANTHESIS
  | OPEN_BRACKET
  | CLOSE_BRACKET
  | OPEN_BRACE
  | CLOSE_BRACE
  | OPERATOR_ADDITION
  | OPERATOR_SUBTRACTION
  | OPERATOR_MULTIPLICATION
  | OPERATOR_DIVISION
  | OPERATOR_MODULUS
  | OPERATOR_BITWISE_LEFT_SHIFT
  | OPERATOR_BITWISE_RIGHT_SHIFT
  | OPERATOR_BITWISE_XOR
  | OPERATOR_BITWISE_AND
  | OPERATOR_BITWISE_OR
  | OPERATOR_BITWISE_COMPLEMENT
  | OPERATOR_LOGICAL_NOT
  | OPERATOR_LOGICAL_EQUAL
  | OPERATOR_LOGICAL_NOT_EQUAL
  | OPERATOR_LOGICAL_LESS_THAN
  | OPERATOR_LOGICAL_GREATER_THAN
  | OPERATOR_LOGICAL_LESS_THAN_OR_EQUAL
  | OPERATOR_LOGICAL_GREATER_THAN_OR_EQUAL
  | OPERATOR_LOGICAL_OR
  | OPERATOR_LOGICAL_AND
  deriving DecidableEq, Repr

/-- `Tokenizer::PREPROCESSOR_DIRECTIVES` (`Tokenizer.h` lines 160-164):
the token kinds the tokenizer can produce for preprocessor directives. -/
def PREPROCESSOR_DIRECTIVES : List TokType :=
  [TokType.PREPROCESSOR_INCLUDE, TokType.PREPROCESSOR_MACRO, TokType.PREPROCESSOR_MACRET,
   TokType.PREPROCESSOR_MACEND, TokType.PREPROCESSOR_INVOKE, TokType.PREPROCESSOR_DEFINE,
   TokType.PREPROCESSOR_UNDEF, TokType.PREPROCESSOR_IFDEF, TokType.PREPROCESSOR_IFNDEF,
   TokType.PREPROCESSOR_ELSE, TokType.PREPROCESSOR_ELSEDEF, TokType.PREPROCESSOR_ELSENDEF,
   TokType.PREPROCESSOR_ENDIF]

/-- `Tokenizer::TOKEN_SPEC` (`Tokenizer.h` lines 194-269): the ordered
(regex pattern, token kind) rules.  Pattern strings are transcribed
verbatim from the source (braces and apostrophes written with hexadecimal
string escapes). -/
def TOKEN_SPEC : List (String × TokType) :=
  [("^ ", TokType.WHITESPACE_SPACE), ("^\\t", TokType.WHITESPACE_TAB),
   ("^\\n", TokType.WHITESPACE_NEWLINE),
   ("^[\\s^[ \\n\\t]]+", TokType.WHITESPACE),
   ("^;\\*[^*]*\\*+(?:[^;*][^*]*\\*+)*;", TokType.COMMENT_MULTI_LINE),
   ("^;.*", TokType.COMMENT_SINGLE_LINE),
   ("^\\\x7b", TokType.OPEN_BRACE), ("^\\\x7d", TokType.CLOSE_BRACE),
   ("^\\[", TokType.OPEN_BRACKET), ("^\\]", TokType.CLOSE_BRACKET),
   ("^\\(", TokType.OPEN_PARANTHESIS), ("^\\)", TokType.CLOSE_PARANTHESIS),
   ("^,", TokType.COMMA), ("^:", TokType.COLON), ("^;", TokType.SEMICOLON),
   ("^#include(?=\\s)", TokType.PREPROCESSOR_INCLUDE),
   ("^#macro(?=\\s)", TokType.PREPROCESSOR_MACRO),
   ("^#macret(?=\\s)", TokType.PREPROCESSOR_MACRET),
   ("^#macend(?=\\s)", TokType.PREPROCESSOR_MACEND),
   ("^#invoke(?=\\s)", TokType.PREPROCESSOR_INVOKE),
   ("^#define(?=\\s)", TokType.PREPROCESSOR_DEFINE),
   ("^#undef(?=\\s)", TokType.PREPROCESSOR_UNDEF),
   ("^#ifdef(?=\\s)", TokType.PREPROCESSOR_IFDEF),
   ("^#ifndef(?=\\s)", TokType.PREPROCESSOR_IFNDEF),
   ("^#else(?=\\s)", TokType.PREPROCESSOR_ELSE),
   ("^#elsedef(?=\\s)", TokType.PREPROCESSOR_ELSEDEF),
   ("^#elsendef(?=\\s)", TokType.PREPROCESSOR_ELSENDEF),
   ("^#endif(?=\\s)", TokType.PREPROCESSOR_ENDIF),
   ("^BYTE(?=[\\s,\\)])", TokType.VARIABLE_TYPE_BYTE),
   ("^DBYTE(?=[\\s,\\)])", TokType.VARIABLE_TYPE_DBYTE),
   ("^WORD(?=[\\s,\\)])", TokType.VARIABLE_TYPE_WORD),
   ("^DWORD(?=[\\s,\\)])", TokType.VARIABLE_TYPE_DWORD),
   ("^\\.global(?=\\s)", TokType.ASSEMBLER_GLOBAL),
   ("^\\.extern(?=\\s)", TokType.ASSEMBLER_EXTERN),
   ("^\\.equ(?=\\s)", TokType.ASSEMBLER_EQU),
   ("^\\.org(?=\\s)", TokType.ASSEMBLER_ORG),
   ("^\\.scope(?=\\s)", TokType.ASSEMBLER_SCOPE),
   ("^\\.scend(?=\\s)", TokType.ASSEMBLER_SCEND),
   ("^\\.db(?=\\s)", TokType.ASSEMBLER_DB_LOW_ENDIAN),
   ("^\\.ddb(?=\\s)", TokType.ASSEMBLER_DDB_LOW_ENDIAN),
   ("^\\.ddb\\*(?=\\s)", TokType.ASSEMBLER_DDB_HIGH_ENDIAN),
   ("^\\.dw(?=\\s)", TokType.ASSEMBLER_DW_LOW_ENDIAN),
   ("^\\.dw\\*(?=\\s)", TokType.ASSEMBLER_DW_HIGH_ENDIAN),
   ("^\\.ddw(?=\\s)", TokType.ASSEMBLER_DDW_LOW_ENDIAN),
   ("^\\.ddw\\*(?=\\s)", TokType.ASSEMBLER_DDW_HIGH_ENDIAN),
   ("^\\.ascii(?=\\s)", TokType.ASSEMBLER_ASCII),
   ("^\\.asciz(?=\\s)", TokType.ASSEMBLER_ASCIZ),
   ("^\\.advance(?=\\s)", TokType.ASSEMBLER_ADVANCE),
   ("^\\.fill(?=\\s)", TokType.ASSEMBLER_FILL),
   ("^\\.space(?=\\s)", TokType.ASSEMBLER_SPACE),
   ("^\\.checkpc(?=\\s)", TokType.ASSEMBLER_CHECKPC),
   ("^\\.align(?=\\s)", TokType.ASSEMBLER_ALIGN),
   ("^\\.bss(?=\\s)", TokType.ASSEMBLER_BSS),
   ("^\\.bss\\*(?=\\s)", TokType.ASSEMBLER_BSS_ABSOLUTE),
   ("^\\.data(?=\\s)", TokType.ASSEMBLER_DATA),
   ("^\\.data\\*(?=\\s)", TokType.ASSEMBLER_DATA_ABSOLUTE),
   ("^\\.code(?=\\s)", TokType.ASSEMBLER_CODE),
   ("^\\.code\\*(?=\\s)", TokType.ASSEMBLER_CODE_ABSOLUTE),
   ("^\\.stop(?=\\s)", TokType.ASSEMBLER_STOP),
   ("^#", TokType.NUMBER_SIGN),
   ("^%[0-1]+", TokType.LITERAL_NUMBER_BINARY),
   ("^@[0-7]+", TokType.LITERAL_NUMBER_OCTAL),
   ("^[0-9]+", TokType.LITERAL_NUMBER_DECIMAL),
   ("^\\$[0-9a-fA-F]+", TokType.LITERAL_NUMBER_HEXADECIMAL),
   ("^\x27.\x27", TokType.LITERAL_CHAR), ("^\".*\"", TokType.LITERAL_STRING),
   ("^[a-zA-Z_][a-zA-Z0-9_]*", TokType.SYMBOL),
   ("^\\+", TokType.OPERATOR_ADDITION), ("^\\-", TokType.OPERATOR_SUBTRACTION),
   ("^\\*", TokType.OPERATOR_MULTIPLICATION), ("^\\/", TokType.OPERATOR_DIVISION),
   ("^\\%", TokType.OPERATOR_MODULUS),
   ("^\\|\\|", TokType.OPERATOR_LOGICAL_OR), ("^\\&\\&", TokType.OPERATOR_LOGICAL_AND),
   ("^\\<\\<", TokType.OPERATOR_BITWISE_LEFT_SHIFT),
   ("^\\>\\>", TokType.OPERATOR_BITWISE_RIGHT_SHIFT),
   ("^\\^", TokType.OPERATOR_BITWISE_XOR), ("^\\&", TokType.OPERATOR_BITWISE_AND),
   ("^\\|", TokType.OPERATOR_BITWISE_OR), ("^~", TokType.OPERATOR_BITWISE_COMPLEMENT),
   ("^==", TokType.OPERATOR_LOGICAL_EQUAL), ("^!=", TokType.OPERATOR_LOGICAL_NOT_EQUAL),
   ("^!", TokType.OPERATOR_LOGICAL_NOT),
   ("^\\<=", TokType.OPERATOR_LOGICAL_LESS_THAN_OR_EQUAL),
   ("^\\>=", TokType.OPERATOR_LOGICAL_GREATER_THAN_OR_EQUAL),
   ("^\\<", TokType.OPERATOR_LOGICAL_LESS_THAN),
   ("^\\>", TokType.OPERATOR_LOGICAL_GREATER_THAN)]

/-- The anchored pattern the tokenizer uses for a preprocessor-directive
spelling `s` (every directive rule in `TOKEN_SPEC` has this shape). -/
def dirPattern (s : String) : String :=
  "^" ++ s ++ "(?=\\s)"

/-- Whether `TOKEN_SPEC` contains a rule producing a preprocessor-directive
token kind for the directive spelling `s`. -/
def hasDirectiveTokenKind (s : String) : Bool :=
  TOKEN_SPEC.any (fun p => p.1 = dirPattern s && PREPROCESSOR_DIRECTIVES.contains p.2)

/-- The 21 directive spellings listed by the specification. -/
def directiveSpellings : List String :=
  ["#include", "#macro", "#macret", "#macend", "#invoke", "#define", "#undef",
   "#ifdef", "#ifndef", "#ifequ", "#ifnequ", "#ifless", "#ifmore",
   "#else", "#elsedef", "#elsendef", "#elseequ", "#elsenequ", "#elseless",
   "#elsemore", "#endif"]

/-- `Tokenizer::Token` (`Tokenizer.h` lines 276-299): kind plus original
text. -/
structure Token where
  type : TokType
  value : String
  deriving DecidableEq, Repr

end AssemblerV3

namespace AssemblerV3

/-- `std::map::find` on the symbol table `m_symbols`
(`std::map<std::string, std::vector<Tokenizer::Token>>`), modelled as an
association list. -/
def mapFind (m : List (String × List Token)) (k : String) : Option (List Token) :=
  (m.find? (fun p => p.1 = k)).map (fun p => p.2)

/-- Whether `m_symbols.find(k) != m_symbols.end()`. -/
def mapContains (m : List (String × List Token)) (k : String) : Bool :=
  m.any (fun p => p.1 = k)

/-- `std::map::insert` on the symbol table: when the key is already present
the call does nothing (it never overwrites an existing mapping). -/
def mapInsert (m : List (String × List Token)) (k : String) (v : List Token) :
    List (String × List Token) :=
  if mapContains m k then m else m ++ [(k, v)]

/-- Whether a token's text matches the regex `"[ \t]"` used by
`Preprocessor::skipTokens` (a full match: exactly one space or one tab). -/
def isSpaceTabValue (t : Token) : Bool :=
  t.value = " " || t.value = "\t"

/-- `Preprocessor::skipTokens(tokenI, "[ \t]")`
(`PreprocessorV3.cpp` lines 158-162), on the suffix of the token stream
starting at the cursor. -/
def skipSpaceTabL : List Token → List Token
  | [] => []
  | t :: rest => if isSpaceTabValue t then skipSpaceTabL rest else t :: rest

/-- The value-capture loop of `Preprocessor::_define`
(`PreprocessorV3.cpp` lines 553-558): consume tokens until the cursor sits
on a `WHITESPACE_NEWLINE` token; running off the end of the stream is a
fatal diagnostic (raised by `isToken` → `expectToken`).  Returns the
captured tokens and the remaining stream (starting at the newline). -/
def captureUntilNewlineL : List Token → Except String (List Token × List Token)
  | [] => Except.error "Preprocessor::expectToken() - Unexpected end of file."
  | t :: rest =>
    if t.type = TokType.WHITESPACE_NEWLINE then
      Except.ok ([], t :: rest)
    else
      match captureUntilNewlineL rest with
      | Except.error e => Except.error e
      | Except.ok (caps, remaining) => Except.ok (t :: caps, remaining)

/-- `Preprocessor::_define` (`PreprocessorV3.cpp` lines 544-562), on the
stream suffix starting at the `#define` token.  Consumes the directive,
skips inline whitespace, consumes a `SYMBOL` token (fatal diagnostic
otherwise), skips inline whitespace, captures the replacement list up to
the next newline, and inserts into the symbol table with
`m_symbols.insert(...)`.  Returns the remaining stream and the updated
table. -/
def defineDirective (stream : List Token) (symbols : List (String × List Token)) :
    Except String (List Token × List (String × List Token)) :=
  match stream with
  | [] => Except.error "Preprocessor::expectToken() - Unexpected end of file."
  | _ :: afterDirective =>
    match skipSpaceTabL afterDirective with
    | [] => Except.error "Preprocessor::_define() - Expected symbol."
    | t :: afterSymbol =>
      if t.type = TokType.SYMBOL then
        match captureUntilNewlineL (skipSpaceTabL afterSymbol) with
        | Except.error e => Except.error e
        | Except.ok (caps, remaining) =>
          Except.ok (remaining, mapInsert symbols t.value caps)
      else Except.error "Preprocessor::_define() - Expected symbol."

/-- The forward scan of `Preprocessor::_macret`
(`PreprocessorV3.cpp` lines 396-408), on the stream suffix starting at the
first token after the (optional) return expression.  The loop keeps a
relative scope level starting at 0, adds 1 on `.scope`, subtracts 1 on
`.scend`, consumes the token, and stops as soon as the level is 0 after a
consume.  Returns (number of tokens consumed, final level); a non-zero
final level is the `Unclosed scope` diagnostic. -/
def macretScan : List Token → Int → Nat × Int
  | [], level => (0, level)
  | t :: rest, level =>
    let level' :=
      if t.type = TokType.ASSEMBLER_SCOPE then level + 1
      else if t.type = TokType.ASSEMBLER_SCEND then level - 1
      else level
    if level' = 0 then (1, 0)
    else
      let r := macretScan rest level'
      (r.1 + 1, r.2)

/-- Whether a token kind is one of the chained-alternate kinds checked at
depth 0 by `Preprocessor::conditionalBlock` (`PreprocessorV3.cpp` line
576): `#else`, `#elsedef`, `#elsendef`. -/
def isElseKind (k : TokType) : Bool :=
  k = TokType.PREPROCESSOR_ELSE || k = TokType.PREPROCESSOR_ELSEDEF ||
    k = TokType.PREPROCESSOR_ELSENDEF

/-- The scan loop of `Preprocessor::conditionalBlock`
(`PreprocessorV3.cpp` lines 570-594).  Arguments: the remaining tokens
(suffix starting at index `i`), the current absolute index `i`, the
relative scope level, and the recorded `nextBlockTokenI` (`-1` when none).
Returns the final `(nextBlockTokenI, endIfTokenI)` (each `-1` when not
found). -/
def condScan (met : Bool) : List Token → Nat → Int → Int → Int × Int
  | [], _, _, nextBlock => (nextBlock, -1)
  | t :: rest, i, level, nextBlock =>
    if level = 0 && t.type = TokType.PREPROCESSOR_ENDIF then
      (nextBlock, (i : Int))
    else
      let nextBlock' :=
        if level = 0 && isElseKind t.type && nextBlock = -1 then (i : Int) else nextBlock
      if level = 0 && isElseKind t.type && !met then
        (nextBlock', -1)
      else
        let level' :=
          if t.type = TokType.PREPROCESSOR_IFDEF || t.type = TokType.PREPROCESSOR_IFNDEF then
            level + 1
          else if t.type = TokType.PREPROCESSOR_ENDIF then level - 1
          else level
        condScan met rest (i + 1) level' nextBlock'

/-- `erase(begin + a, begin + b)` on the token vector. -/
def eraseRange (l : List Token) (a b : Nat) : List Token :=
  l.take a ++ l.drop b

/-- `insert(begin + i, tok)` on the token vector. -/
def insertAt (l : List Token) (i : Nat) (x : Token) : List Token :=
  l.take i ++ x :: l.drop i

/-- The `"; conditional"` comment token inserted by the resolver
(`PreprocessorV3.cpp` line 611). -/
def commentToken : Token :=
  Token.mk TokType.COMMENT_SINGLE_LINE "; conditional"

/-- `Preprocessor::conditionalBlock` (`PreprocessorV3.cpp` lines 565-616),
given the token vector, the cursor `i` (positioned just after the opener's
operands) and the condition outcome.  Per the diagnostics design, the
`log(ERROR, ... Unclosed ifdef block)` call is fatal, so it is modelled as
`Except.error`; otherwise the result is the rewritten token vector and the
new cursor (an `Int`, because the not-met branch assigns
`tokenI = nextBlockTokenI`, which can be `-1`). -/
def conditionalBlock (tokens : List Token) (i : Nat) (conditionMet : Bool) :
    Except String (List Token × Int) :=
  let scanned := condScan conditionMet (tokens.drop i) i 0 (-1)
  let nextBlock := scanned.1
  let endIf := scanned.2
  if (conditionMet && endIf = -1) || (!conditionMet && nextBlock = -1) then
    Except.error "Preprocessor::_ifdef() - Unclosed ifdef block."
  else if conditionMet then
    let tokens' :=
      if nextBlock ≠ -1 then eraseRange tokens nextBlock.toNat endIf.toNat else tokens
    Except.ok (insertAt tokens' i commentToken, (i : Int))
  else
    Except.ok (tokens, nextBlock)

/-- Demo token: a `#define` directive token. -/
def defTok : Token := Token.mk TokType.PREPROCESSOR_DEFINE "#define"

/-- Demo token: a single-space whitespace token. -/
def spaceTok : Token := Token.mk TokType.WHITESPACE_SPACE " "

/-- Demo token: a newline whitespace token. -/
def nlTok : Token := Token.mk TokType.WHITESPACE_NEWLINE "\n"

/-- Demo token: the symbol `S`. -/
def symS : Token := Token.mk TokType.SYMBOL "S"

/-- Demo token: the symbol `a`. -/
def symA : Token := Token.mk TokType.SYMBOL "a"

/-- Demo token: the symbol `b`. -/
def symB : Token := Token.mk TokType.SYMBOL "b"

/-- Demo token: a `.scend` token (as inserted by `Preprocessor::_invoke`). -/
def scendTok : Token := Token.mk TokType.ASSEMBLER_SCEND ".scend"

/-- Demo token: an `#endif` directive token. -/
def endifTok : Token := Token.mk TokType.PREPROCESSOR_ENDIF "#endif"

/-- Demo token: a plain text token `A`. -/
def textATok : Token := Token.mk TokType.TEXT "A"

end AssemblerV3

namespace Emulator32bit

/-- Helper: under `1 ≤ num_bytes` and no 32-bit wraparound, the C++
expression `address + num_bytes - 1` equals the plain `Nat` value. -/
theorem lastAddr_eq (address num_bytes : Nat) (h1 : 1 ≤ num_bytes)
    (h2 : address + num_bytes ≤ WORD_SIZE) :
    lastAddr address num_bytes = address + num_bytes - 1 := by
  have hW : WORD_SIZE = 4294967296 := rfl
  unfold lastAddr
  have h3 : address + num_bytes + (WORD_SIZE - 1) = (address + num_bytes - 1) + WORD_SIZE := by
    omega
  rw [h3, Nat.add_mod_right]
  exact Nat.mod_eq_of_lt (by omega)

/-- Helper: the byte stores issued by the write loop, in issue order:
byte `i` of the value (counting from the low end) goes to `address + i`. -/
theorem writeLoop_trace (n : Nat) :
    ∀ (data : Nat → Nat) (address value : Nat), address + n ≤ WORD_SIZE →
      (Memory.writeLoop data address value n).2
        = (List.range n).map (fun i => (address + i, value / 256 ^ i % 256)) := by
  induction n with
  | zero => intro data address value _; simp [Memory.writeLoop]
  | succ n ih =>
    intro data address value h
    have hmod : address % WORD_SIZE = address := Nat.mod_eq_of_lt (by omega)
    simp only [Memory.writeLoop]
    rw [ih _ (address + 1) (value / 256) (by omega), List.range_succ_eq_map]
    simp only [List.map_cons, List.map_map, hmod]
    refine congrArg₂ _ ?_ ?_
    · simp
    · congr 1
      funext i
      simp only [Function.comp_apply, Nat.succ_eq_add_one, Prod.mk.injEq]
      constructor
      · omega
      · rw [Nat.div_div_eq_div_mul, ← pow_succ']

/-- Helper: the write loop leaves every byte outside the written range
unchanged. -/
theorem writeLoop_frame (n : Nat) :
    ∀ (data : Nat → Nat) (address value x : Nat),
      (∀ i, i < n → x ≠ (address + i) % WORD_SIZE) →
      (Memory.writeLoop data address value n).1 x = data x := by
  induction n with
  | zero => intro data address value x _; simp [Memory.writeLoop]
  | succ n ih =>
    intro data address value x h
    simp only [Memory.writeLoop]
    rw [ih _ (address + 1) (value / 256) x ?_]
    · have hx : x ≠ address % WORD_SIZE := by
        have h0 := h 0 (Nat.succ_pos n)
        simpa using h0
      simp [hx]
    · intro i hi
      have hi1 := h (i + 1) (by omega)
      have heq : address + (i + 1) = (address + 1) + i := by omega
      rw [heq] at hi1
      exact hi1

/-- Helper: after the write loop (with no 32-bit wraparound), the byte at
`address + i` is byte `i` of the value, counting from the low end. -/
theorem writeLoop_get (n : Nat) :
    ∀ (data : Nat → Nat) (address value i : Nat), address + n ≤ WORD_SIZE → i < n →
      (Memory.writeLoop data address value n).1 (address + i) = value / 256 ^ i % 256 := by
  induction n with
  | zero => intro _ _ _ i _ hi; exact absurd hi (Nat.not_lt_zero i)
  | succ n ih =>
    intro data address value i h hi
    simp only [Memory.writeLoop]
    cases i with
    | zero =>
      rw [writeLoop_frame n _ (address + 1) (value / 256) (address + 0) ?_]
      · have hmod : address % WORD_SIZE = address := Nat.mod_eq_of_lt (by omega)
        simp [hmod]
      · intro j hj
        have hlt : (address + 1) + j < WORD_SIZE := by omega
        rw [Nat.mod_eq_of_lt hlt]
        omega
    | succ i' =>
      have heq : address + (i' + 1) = (address + 1) + i' := by omega
      rw [heq, ih _ (address + 1) (value / 256) i' (by omega) (by omega)]
      rw [Nat.div_div_eq_div_mul, ← pow_succ']

/-- C1: the specification claims `read(write(a, v, n), a, n) = v mod 2^(8n)`
for every in-bounds write with `n ∈ {1,2,4}`.  The code violates it:
`Memory::write` stores the low byte at the lowest address while
`Memory::read` assembles the byte at the lowest address as the most
significant, so on the 4-byte RAM region `[0,3]`, writing `v = 0x0102`
(258) with `n = 2` at address 0 (which satisfies `lo ≤ 0 ≤ hi - n + 1`
and succeeds) and reading 2 bytes back yields `0x0201` (513), not
`258 mod 2^16`. -/
theorem c1_memory_read_write_roundtrip_violated :
    ramDemo.lo_addr ≤ 0 ∧ 0 ≤ ramDemo.hi_addr - 2 + 1
    ∧ (Memory.write ramDemo 0 258 2).2 = none
    ∧ Memory.read (Memory.write ramDemo 0 258 2).1 0 2 = (513, none)
    ∧ (513 : Nat) ≠ 258 % 2 ^ 16 := by
  decide

/-- C2: the specification claims that with `little_endian = true` the byte
at `addr+0` is assembled as the lowest-significance byte.  The code does
the opposite: with bytes `0x01` at address 0 and `0x02` at address 1 and
`size = 2`, both `_emu_printm` and `_emu_assertm` assemble `0x0102` (258)
when `little_endian` is true — the byte at `addr+0` is the
most-significant — whereas the claim requires `0x0201` (513); the
`little_endian = false` branch is the one that produces 513. -/
theorem c2_emu_printm_little_endian_inverted :
    emu_printm_value busDemo 0 2 true = 258
    ∧ emu_assertm_value busDemo 0 2 true = 258
    ∧ emu_printm_value busDemo 0 2 false = 513
    ∧ emu_assertm_value busDemo 0 2 false = 513
    ∧ (258 : Nat) ≠ 513 := by
  decide

/-- C6 counterexample: the claim states that an in-bounds write of `n ≥ 2`
bytes stores the low byte of the value at `addr + n - 1`.  On the RAM
region `[0,3]`, `write(0, 0x0102, 2)` stores byte `0x01` at address
`0 + 2 - 1 = 1`, which is not the low byte `0x0102 mod 256 = 2`. -/
theorem c6_write_low_byte_location_counterexample :
    (Memory.write ramDemo 0 258 2).1.data (0 + 2 - 1) = 1
    ∧ (1 : Nat) ≠ 258 % 256 := by
  decide

/-- C6 (amended): for every in-bounds RAM write of `n ≥ 2` bytes (with the
region window inside the 32-bit address space), the write succeeds, the
low byte of the value is stored at `addr` and successive higher bytes
proceed toward `addr + n - 1`, and the byte accesses are issued in
address-ascending order (the trace of issued stores is
`[(addr, byte 0), (addr+1, byte 1), ...]`). -/
theorem c6_write_low_byte_at_base_ascending
    (m : Memory) (address value num_bytes : Nat)
    (hn : 2 ≤ num_bytes) (hlo : m.lo_addr ≤ address)
    (hhi : address + num_bytes - 1 ≤ m.hi_addr) (hW : m.hi_addr < WORD_SIZE) :
    (Memory.write m address value num_bytes).2 = none
    ∧ Memory.writeAccesses m address value num_bytes
        = (List.range num_bytes).map (fun i => (address + i, value / 256 ^ i % 256))
    ∧ ∀ i, i < num_bytes →
        (Memory.write m address value num_bytes).1.data (address + i)
          = value / 256 ^ i % 256 := by
  have hle : address + num_bytes ≤ WORD_SIZE := by omega
  have hchk : (m.in_bounds address && m.in_bounds (lastAddr address num_bytes)) = true := by
    rw [lastAddr_eq address num_bytes (by omega) hle]
    simp only [Memory.in_bounds, Bool.and_eq_true, decide_eq_true_eq]
    omega
  refine ⟨?_, ?_, ?_⟩
  · simp [Memory.write, hchk]
  · rw [Memory.writeAccesses, hchk]
    simp only [Bool.not_true, Bool.false_eq_true, if_false]
    exact writeLoop_trace num_bytes m.data address value hle
  · intro i hi
    simp only [Memory.write, hchk, Bool.not_true, Bool.false_eq_true, if_false]
    exact writeLoop_get num_bytes m.data address value i hle hi

/-- C6 witness: the amended statement instantiated on the RAM region
`[0,3]` with `write(0, 0x0102, 2)`: the write succeeds, the issued stores
are `[(0, 2), (1, 1)]` (ascending addresses, low byte first), and bytes
land accordingly. -/
theorem c6_write_low_byte_at_base_ascending_witness :
    (Memory.write ramDemo 0 258 2).2 = none
    ∧ Memory.writeAccesses ramDemo 0 258 2
        = (List.range 2).map (fun i => (0 + i, 258 / 256 ^ i % 256))
    ∧ ∀ i, i < 2 →
        (Memory.write ramDemo 0 258 2).1.data (0 + i) = 258 / 256 ^ i % 256 :=
  c6_write_low_byte_at_base_ascending ramDemo 0 258 2 (by decide) (by decide)
    (by decide) (by decide)

/-- C7: the specification claims the SWI gateway dispatches NR 1020 to
`emu_log` and NR 1021 to `emu_err`, raising the fatal unknown-syscall
diagnostic only outside `{1000,1001,1002,1003,1010,1011,1012,1020,1021}`.
The `switch` in `_swi` has no `case 1020` or `case 1021`: both fall to the
`default` arm, the fatal `INVALID SYSCALL NUMBER` diagnostic (the
implemented syscalls 1000-1003 and 1010-1012 dispatch normally). -/
theorem c7_swi_1020_1021_fall_to_invalid :
    swiDispatch 1020 = SwiAction.invalid_syscall
    ∧ swiDispatch 1021 = SwiAction.invalid_syscall
    ∧ swiDispatch 1000 = SwiAction.emu_print
    ∧ swiDispatch 1002 = SwiAction.emu_printm
    ∧ swiDispatch 1012 = SwiAction.emu_assertp := by
  decide

/-- C8: for every ROM region, every write — at any address, value and byte
count — records an `ACCESS_DENIED` exception carrying the address, value
and byte count, leaves the region's bytes unchanged, and therefore every
subsequent read returns exactly what it returned before the write. -/
theorem c8_rom_write_access_denied_preserves
    (m : Memory) (address value num_bytes : Nat) :
    (ROM.write m address value num_bytes).2
        = some (MemoryWriteFault.ACCESS_DENIED address value num_bytes)
    ∧ (ROM.write m address value num_bytes).1 = m
    ∧ ∀ a n, Memory.read (ROM.write m address value num_bytes).1 a n = Memory.read m a n :=
  ⟨rfl, rfl, fun _ _ => rfl⟩

/-- C10: for every out-of-bounds read access (the bounds check on `addr`
or on `addr + n - 1` fails), `Memory::read` records an
`OUT_OF_BOUNDS_ADDRESS` exception carrying the faulting address and
returns the value 0, regardless of the region's contents. -/
theorem c10_read_out_of_bounds_returns_zero
    (m : Memory) (address num_bytes : Nat)
    (h : (m.in_bounds address && m.in_bounds (lastAddr address num_bytes)) = false) :
    Memory.read m address num_bytes
      = (0, some (MemoryReadFault.OUT_OF_BOUNDS_ADDRESS address)) := by
  simp [Memory.read, h]

/-- C10 witness: reading 1 byte at address 10 from the RAM region `[0,3]`
is out of bounds, returns 0 and records the fault at address 10. -/
theorem c10_read_out_of_bounds_returns_zero_witness :
    (ramDemo.in_bounds 10 && ramDemo.in_bounds (lastAddr 10 1)) = false
    ∧ Memory.read ramDemo 10 1 = (0, some (MemoryReadFault.OUT_OF_BOUNDS_ADDRESS 10)) :=
  ⟨by decide, c10_read_out_of_bounds_returns_zero ramDemo 10 1 (by decide)⟩

end Emulator32bit

namespace AssemblerV3

/-- Helper: an element of `dropWhile p l` is an element of `l`. -/
theorem mem_of_mem_dropWhile {p : Token → Bool} :
    ∀ {l : List Token} {t : Token}, t ∈ l.dropWhile p → t ∈ l := by
  intro l
  induction l with
  | nil => intro t ht; simp at ht
  | cons x xs ih =>
    intro t ht
    rw [List.dropWhile_cons] at ht
    by_cases hx : p x = true
    · simp only [hx, if_true] at ht
      exact List.mem_cons_of_mem x (ih ht)
    · simp only [hx, if_false] at ht
      exact ht

/-- Helper: the inline-whitespace skip of `_define` acts as `dropWhile`
and stops no later than the terminating newline token. -/
theorem skipSpaceTabL_append_newline (body rest : List Token) :
    skipSpaceTabL (body ++ Token.mk TokType.WHITESPACE_NEWLINE "\n" :: rest)
      = body.dropWhile isSpaceTabValue ++ Token.mk TokType.WHITESPACE_NEWLINE "\n" :: rest := by
  induction body with
  | nil =>
    have h : isSpaceTabValue (Token.mk TokType.WHITESPACE_NEWLINE "\n") = false := by decide
    simp [skipSpaceTabL, h]
  | cons t body ih =>
    by_cases ht : isSpaceTabValue t = true
    · simp [skipSpaceTabL, List.dropWhile_cons, ht, ih]
    · simp [skipSpaceTabL, List.dropWhile_cons, ht]

/-- Helper: the value-capture loop of `_define` over tokens that contain no
newline, followed by a newline, captures exactly those tokens and leaves
the stream positioned at the newline. -/
theorem captureUntilNewlineL_append (body rest : List Token)
    (hbody : ∀ t ∈ body, t.type ≠ TokType.WHITESPACE_NEWLINE) :
    captureUntilNewlineL (body ++ Token.mk TokType.WHITESPACE_NEWLINE "\n" :: rest)
      = Except.ok (body, Token.mk TokType.WHITESPACE_NEWLINE "\n" :: rest) := by
  induction body with
  | nil => simp [captureUntilNewlineL]
  | cons t body ih =>
    have ht : t.type ≠ TokType.WHITESPACE_NEWLINE := hbody t (List.mem_cons_self t body)
    have ih' := ih (fun u hu => hbody u (List.mem_cons_of_mem t hu))
    simp [captureUntilNewlineL, ht, ih']

/-- C3 counterexample: the claim states that a second `#define S toks`
rebinds `S` so that lookups yield the new replacement list.  Processing
`#define S b` with `S` already bound to `[a]` leaves the table unchanged
(`std::map::insert` does not overwrite): the lookup still yields `[a]`,
not `[b]`. -/
theorem c3_define_redefinition_counterexample :
    defineDirective [defTok, spaceTok, symS, spaceTok, symB, nlTok] [("S", [symA])]
      = Except.ok ([nlTok], [("S", [symA])])
    ∧ mapFind [("S", [symA])] "S" = some [symA]
    ∧ some [symA] ≠ some [symB] :=
  ⟨rfl, rfl, by decide⟩

/-- C3 (amended): processing a second `#define S toks` directive succeeds
without a diagnostic but is a silent no-op for an already-bound symbol:
the symbol table is returned unchanged, so subsequent lookups of `S` yield
the original replacement list, not the new one. -/
theorem c3_define_redefinition_is_noop
    (symbols : List (String × List Token)) (s : String) (body rest : List Token)
    (hbound : mapContains symbols s = true)
    (hbody : ∀ t ∈ body, t.type ≠ TokType.WHITESPACE_NEWLINE)
    (hs : isSpaceTabValue (Token.mk TokType.SYMBOL s) = false) :
    defineDirective
        (Token.mk TokType.PREPROCESSOR_DEFINE "#define" :: Token.mk TokType.SYMBOL s ::
          (body ++ Token.mk TokType.WHITESPACE_NEWLINE "\n" :: rest)) symbols
      = Except.ok (Token.mk TokType.WHITESPACE_NEWLINE "\n" :: rest, symbols) := by
  have h1 : skipSpaceTabL
      (Token.mk TokType.SYMBOL s :: (body ++ Token.mk TokType.WHITESPACE_NEWLINE "\n" :: rest))
      = Token.mk TokType.SYMBOL s :: (body ++ Token.mk TokType.WHITESPACE_NEWLINE "\n" :: rest) := by
    simp [skipSpaceTabL, hs]
  have h3 := captureUntilNewlineL_append (body.dropWhile isSpaceTabValue) rest
    (fun t ht => hbody t (mem_of_mem_dropWhile ht))
  have h4 : mapInsert symbols s (body.dropWhile isSpaceTabValue) = symbols := by
    simp [mapInsert, hbound]
  simp [defineDirective, h1, skipSpaceTabL_append_newline, h3, h4]

/-- C3 witness: the amended statement instantiated on a two-token stream
`#define S b` with `S` already bound to `[a]`: the directive succeeds and
the table is returned unchanged. -/
theorem c3_define_redefinition_is_noop_witness :
    mapContains [("S", [symA])] "S" = true
    ∧ defineDirective
        (Token.mk TokType.PREPROCESSOR_DEFINE "#define" :: Token.mk TokType.SYMBOL "S" ::
          ([symB] ++ Token.mk TokType.WHITESPACE_NEWLINE "\n" :: ([] : List Token)))
        [("S", [symA])]
      = Except.ok (Token.mk TokType.WHITESPACE_NEWLINE "\n" :: ([] : List Token), [("S", [symA])]) :=
  ⟨by decide, c3_define_redefinition_is_noop [("S", [symA])] "S" [symB] []
      (by decide) (by decide) (by decide)⟩

/-- C4: the claim (and the code's own comment) states the `#macret` scan
consumes all remaining macro-body tokens, leaving the cursor immediately
past the `.scend` that the matching `#invoke` inserted.  The loop's level
starts at 0 and the loop breaks as soon as the level is 0 after consuming
a token, so on the body remainder `[newline, a, newline, .scend]` it
consumes exactly one token (the newline) and stops with the `.scend`
(three tokens further) unconsumed, instead of the expected four. -/
theorem c4_macret_scan_stops_after_one_token :
    macretScan [nlTok, symA, nlTok, scendTok] 0 = (1, 0)
    ∧ (1 : Nat) ≠ 4 :=
  ⟨rfl, by decide⟩

/-- C5: the claim states that a not-met conditional with no chained
alternate but with a matching `#endif` at depth 0 succeeds, moving the
cursor to the `#endif`.  On the block `A \n #endif` with the condition not
met, the scan does find the `#endif` (at index 2) and no alternate, yet
the resolver raises the fatal `Unclosed ifdef block` diagnostic because
its error test fires whenever `!conditionMet && nextBlockTokenI == -1`. -/
theorem c5_conditional_endif_without_alternate_is_fatal :
    condScan false [textATok, nlTok, endifTok] 0 0 (-1) = (-1, 2)
    ∧ conditionalBlock [textATok, nlTok, endifTok] 0 false
        = Except.error "Preprocessor::_ifdef() - Unclosed ifdef block." :=
  ⟨rfl, rfl⟩

/-- C9: the claim states all 21 listed directive spellings are produced by
the tokenizer as distinct directive token kinds.  `TOKEN_SPEC` contains a
directive rule for only 13 of the 21 spellings, and the kind set
`PREPROCESSOR_DIRECTIVES` itself has only 13 members: `#ifequ`, `#ifnequ`,
`#ifless`, `#ifmore`, `#elseequ`, `#elsenequ`, `#elseless` and `#elsemore`
have no directive rule at all (they can only lex as `#` + symbol text). -/
theorem c9_tokenizer_missing_conditional_directives :
    (directiveSpellings.filter hasDirectiveTokenKind).length = 13
    ∧ directiveSpellings.length = 21
    ∧ PREPROCESSOR_DIRECTIVES.length = 13
    ∧ hasDirectiveTokenKind "#ifdef" = true
    ∧ hasDirectiveTokenKind "#else" = true
    ∧ hasDirectiveTokenKind "#ifequ" = false
    ∧ hasDirectiveTokenKind "#ifnequ" = false
    ∧ hasDirectiveTokenKind "#ifless" = false
    ∧ hasDirectiveTokenKind "#ifmore" = false
    ∧ hasDirectiveTokenKind "#elseequ" = false
    ∧ hasDirectiveTokenKind "#elsenequ" = false
    ∧ hasDirectiveTokenKind "#elseless" = false
    ∧ hasDirectiveTokenKind "#elsemore" = false := by
  decide

end AssemblerV3
